import Mathlib

/-!
Verification of the `nauhpc/jobstats` repository slice against its
natural-language specification.  The only source file is `setup.py`, a
32-line setuptools packaging script.  We embed it in two complementary
ways:

* a syntactic view: a small Python AST (`PyExpr`, `Stmt`) holding the
  script statement by statement, plus a line-by-line layout of the file
  (`sourceLines`), used for structural claims (no error handling, no
  references to `sys.argv`/`os.environ`, no algorithmic core logic,
  line count);

* a semantic view: `runScript` executes the script over an explicit
  filesystem state (`Filesystem`), producing a trace of observable
  effects (`Effect`) and an optional error.  The keyword arguments of
  the single `setuptools.setup` call are the record `SetupArgs`, built
  by `setupArgs` exactly as the script builds them.

`setuptools.find_packages()` is library code external to the
repository: it scans the filesystem for Python packages.  We abstract
it by its result, recorded in the filesystem state as `packageDirs`,
keeping the one fact that matters: its value is a function of the
filesystem beyond `README.md`.
-/

namespace JobstatsSetup

/-- A Python expression, covering the expression forms needed to embed
`setup.py` faithfully (string/bool literals, names, attribute access
such as `setuptools.setup`, calls with positional and keyword
arguments, list and tuple displays). -/
inductive PyExpr where
  | str (s : String)
  | bool (b : Bool)
  | name (n : String)
  | attr (obj : PyExpr) (field : String)
  | call (f : PyExpr) (args : List PyExpr) (kwargs : List (String × PyExpr))
  | listDisplay (elems : List PyExpr)
  | tupleDisplay (elems : List PyExpr)
deriving Repr

/-- A Python statement.  Besides the statement forms that actually
occur in `setup.py` (imports, a `with open(...) as v:` block, an
assignment, an expression statement), the type also has constructors
for `try/except`, `if`, `def`, `for` and `while`, so that the claims
"no exception handler or guard exists" and "no algorithmic core logic
is present" are non-vacuous over this type. -/
inductive Stmt where
  | importMod (modName : String)
  | assign (target : String) (value : PyExpr)
  | withOpen (path : String) (varName : String) (body : List Stmt)
  | exprStmt (e : PyExpr)
  | tryExcept (body : List Stmt) (handler : List Stmt)
  | ifStmt (cond : PyExpr) (thenBranch : List Stmt) (elseBranch : List Stmt)
  | defFun (fname : String) (params : List String) (body : List Stmt)
  | forLoop (var : String) (iter : PyExpr) (body : List Stmt)
  | whileLoop (cond : PyExpr) (body : List Stmt)
deriving Repr

/-- The keyword arguments of the `setuptools.setup(...)` call,
transcribed from lines 13-31 of `setup.py` in source order. -/
def setupCallKwargs : List (String × PyExpr) :=
  [ ("name", .str "jobstats"),
    ("version", .str "1.2.5"),
    ("author", .str "Chance Nelson"),
    ("author_email", .str "chance-nelson@nau.edu"),
    ("description", .str "view Slurm job resource efficiencies"),
    ("long_description", .name "long_description"),
    ("long_description_content_type", .str "text/markdown"),
    ("url", .str "https://github.com/nauhpc/jobstats"),
    ("include_package_data", .bool true),
    ("packages", .call (.attr (.name "setuptools") "find_packages") [] []),
    ("scripts", .listDisplay [.str "jobstats/jobstats", .str "jobstats/group_efficiency"]),
    ("data_files", .listDisplay
      [.tupleDisplay [.str "config", .listDisplay [.str "jobstats/jobstats-config.ini"]]]),
    ("classifiers", .listDisplay
      [ .str "Programming Language :: Python :: 3 :: Only",
        .str "License :: OSI Approved :: GNU General Public License v3 (GPLv3)",
        .str "Operating System :: POSIX :: Linux",
        .str "Environment :: Console",
        .str "Development Status :: 5 - Production/Stable" ]) ]

/-- The statements of `setup.py`, in order: three imports (lines 4-6),
the `with open("README.md") as fp: long_description = fp.read()` block
(lines 9-10), and the single `setuptools.setup(...)` expression
statement (lines 12-32). -/
def setupScript : List Stmt :=
  [ .importMod "os",
    .importMod "sys",
    .importMod "setuptools",
    .withOpen "README.md" "fp"
      [.assign "long_description" (.call (.attr (.name "fp") "read") [] [])],
    .exprStmt (.call (.attr (.name "setuptools") "setup") [] setupCallKwargs) ]

/-- Classification of one physical line of `setup.py`. -/
inductive SourceLine where
  | shebang
  | blank
  | imp (modName : String)
  | withOpenHeader (path : String) (varName : String)
  | assignFromRead (target : String) (srcVar : String)
  | setupCallLine (lineIndex : Nat)
deriving Repr, DecidableEq

/-- The 32 physical lines of `setup.py`, classified in order: line 1 is
the shebang, lines 2-3 blank, lines 4-6 the imports of `os`, `sys` and
`setuptools`, lines 7-8 blank, line 9 the `with open("README.md") as
fp:` header, line 10 the `long_description = fp.read()` body, line 11
blank, and lines 12-32 the `setuptools.setup(...)` call (the final
line, the closing parenthesis, carries no terminating newline). -/
def sourceLines : List SourceLine :=
  [ .shebang, .blank, .blank,
    .imp "os", .imp "sys", .imp "setuptools",
    .blank, .blank,
    .withOpenHeader "README.md" "fp",
    .assignFromRead "long_description" "fp",
    .blank ]
  ++ (List.range 21).map .setupCallLine

mutual

/-- Whether an expression mentions the attribute access `base.field`
(for example `sys.argv` or `os.environ`). -/
def exprMentions (base fld : String) : PyExpr → Bool
  | .str _ => false
  | .bool _ => false
  | .name _ => false
  | .attr (.name b) f => b == base && f == fld
  | .attr obj _ => exprMentions base fld obj
  | .call f args kwargs =>
      exprMentions base fld f || exprListMentions base fld args
        || kwargListMentions base fld kwargs
  | .listDisplay es => exprListMentions base fld es
  | .tupleDisplay es => exprListMentions base fld es

/-- `exprMentions` over a list of expressions. -/
def exprListMentions (base fld : String) : List PyExpr → Bool
  | [] => false
  | e :: es => exprMentions base fld e || exprListMentions base fld es

/-- `exprMentions` over a keyword-argument list. -/
def kwargListMentions (base fld : String) : List (String × PyExpr) → Bool
  | [] => false
  | (_, e) :: ps => exprMentions base fld e || kwargListMentions base fld ps

end

mutual

/-- Whether a statement mentions the attribute access `base.field`
anywhere, descending into nested statement blocks. -/
def stmtMentions (base fld : String) : Stmt → Bool
  | .importMod _ => false
  | .assign _ v => exprMentions base fld v
  | .withOpen _ _ body => stmtListMentions base fld body
  | .exprStmt e => exprMentions base fld e
  | .tryExcept body handler =>
      stmtListMentions base fld body || stmtListMentions base fld handler
  | .ifStmt c t e =>
      exprMentions base fld c || stmtListMentions base fld t || stmtListMentions base fld e
  | .defFun _ _ body => stmtListMentions base fld body
  | .forLoop _ it body => exprMentions base fld it || stmtListMentions base fld body
  | .whileLoop c body => exprMentions base fld c || stmtListMentions base fld body

/-- `stmtMentions` over a list of statements. -/
def stmtListMentions (base fld : String) : List Stmt → Bool
  | [] => false
  | s :: ss => stmtMentions base fld s || stmtListMentions base fld ss

end

mutual

/-- Whether a statement contains an error-handling construct: a
`try/except` handler or an `if` guard, at any nesting depth. -/
def stmtHasErrorHandling : Stmt → Bool
  | .importMod _ => false
  | .assign _ _ => false
  | .exprStmt _ => false
  | .tryExcept _ _ => true
  | .ifStmt _ _ _ => true
  | .withOpen _ _ body => stmtListHasErrorHandling body
  | .defFun _ _ body => stmtListHasErrorHandling body
  | .forLoop _ _ body => stmtListHasErrorHandling body
  | .whileLoop _ body => stmtListHasErrorHandling body

/-- `stmtHasErrorHandling` over a list of statements. -/
def stmtListHasErrorHandling : List Stmt → Bool
  | [] => false
  | s :: ss => stmtHasErrorHandling s || stmtListHasErrorHandling ss

end

mutual

/-- Whether a statement contains algorithmic core logic: a function
definition, a loop, a conditional or a `try` block, at any nesting
depth.  Imports, straight-line assignments and call statements are
packaging metadata. -/
def stmtHasCoreLogic : Stmt → Bool
  | .importMod _ => false
  | .assign _ _ => false
  | .exprStmt _ => false
  | .tryExcept _ _ => true
  | .ifStmt _ _ _ => true
  | .defFun _ _ _ => true
  | .forLoop _ _ _ => true
  | .whileLoop _ _ => true
  | .withOpen _ _ body => stmtListHasCoreLogic body

/-- `stmtHasCoreLogic` over a list of statements. -/
def stmtListHasCoreLogic : List Stmt → Bool
  | [] => false
  | s :: ss => stmtHasCoreLogic s || stmtListHasCoreLogic ss

end

/-- Whether a top-level statement is one of the packaging-metadata
statement shapes that occur in `setup.py`: an import, the
`with open("README.md")` read, or the `setuptools.setup` call. -/
def stmtIsPackagingMetadata : Stmt → Bool
  | .importMod _ => true
  | .withOpen "README.md" _ _ => true
  | .exprStmt (.call (.attr (.name "setuptools") "setup") _ _) => true
  | _ => false

/-- The record of keyword arguments received by the single
`setuptools.setup(...)` call. -/
structure SetupArgs where
  name : String
  version : String
  author : String
  author_email : String
  description : String
  long_description : String
  long_description_content_type : String
  url : String
  include_package_data : Bool
  packages : List String
  scripts : List String
  data_files : List (String × List String)
  classifiers : List String
deriving Repr, DecidableEq

/-- The filesystem state a run of `setup.py` observes: the content of
`README.md` (`none` when the file is missing or unreadable) and the
package directories that `setuptools.find_packages()` finds when it
scans the tree. -/
structure Filesystem where
  readme : Option String
  packageDirs : List String
deriving Repr, DecidableEq

/-- `setuptools.find_packages()`: external library code that scans the
filesystem for Python packages, abstracted here by its result on the
given filesystem state. -/
def find_packages (fs : Filesystem) : List String :=
  fs.packageDirs

/-- The keyword arguments of the `setuptools.setup` call on lines
12-32 of `setup.py`, as a function of the two non-literal inputs: the
`long_description` value read from `README.md` and the result of
`setuptools.find_packages()`.  Every other argument is a literal. -/
def setupArgs (long_description : String) (packages : List String) : SetupArgs :=
  { name := "jobstats"
    version := "1.2.5"
    author := "Chance Nelson"
    author_email := "chance-nelson@nau.edu"
    description := "view Slurm job resource efficiencies"
    long_description := long_description
    long_description_content_type := "text/markdown"
    url := "https://github.com/nauhpc/jobstats"
    include_package_data := true
    packages := packages
    scripts := ["jobstats/jobstats", "jobstats/group_efficiency"]
    data_files := [("config", ["jobstats/jobstats-config.ini"])]
    classifiers :=
      [ "Programming Language :: Python :: 3 :: Only",
        "License :: OSI Approved :: GNU General Public License v3 (GPLv3)",
        "Operating System :: POSIX :: Linux",
        "Environment :: Console",
        "Development Status :: 5 - Production/Stable" ] }

/-- An observable effect of running `setup.py`: a successful file read,
or the invocation of `setuptools.setup` with its arguments.  The script
performs no other observable action. -/
inductive Effect where
  | fileRead (path : String)
  | setupCall (args : SetupArgs)
deriving Repr, DecidableEq

/-- A Python-level error raised by the script. -/
inductive PyError where
  | fileNotFound (path : String)
deriving Repr, DecidableEq

/-- Whether an effect is a `setuptools.setup` invocation. -/
def Effect.isSetupCall : Effect → Bool
  | .setupCall _ => true
  | .fileRead _ => false

/-- Execution of `setup.py`: the script takes the command line and the
environment (imported via `sys` and `os` but never consulted) and the
filesystem state.  If `README.md` cannot be opened, the `with open`
on line 9 raises and nothing further runs; otherwise the file is read
into `long_description` and `setuptools.setup` is called once with the
arguments of lines 13-31.  The result is the trace of observable
effects together with the unhandled error, if any. -/
def runScript (argv : List String) (environ : List (String × String))
    (fs : Filesystem) : List Effect × Option PyError :=
  match fs.readme with
  | none => ([], some (.fileNotFound "README.md"))
  | some content =>
      ([.fileRead "README.md",
        .setupCall (setupArgs content (find_packages fs))], none)

/-- The file name a script entry installs as: the final component of
its path, i.e. the characters after the last `/` (setuptools installs
each `scripts` and `data_files` entry under its basename). -/
def scriptBaseName (path : String) : String :=
  String.mk ((path.data.reverse.takeWhile fun c => c != '/').reverse)

/-- Whether the string `s` starts with the string `pre`, computed on
the underlying character lists (used to group PyPI classifiers by
their leading category). -/
def classifierStartsWith (pre s : String) : Bool :=
  pre.data.isPrefixOf s.data

/-- C1: the packaging manifest declares exactly two installed
executable scripts, and their installed names (the basenames of the
two `scripts` entries) are `jobstats` and `group_efficiency`, in that
order — no other executable is declared. -/
theorem scripts_declare_two_executables (d : String) (p : List String) :
    (setupArgs d p).scripts.length = 2 ∧
    (setupArgs d p).scripts.map scriptBaseName = ["jobstats", "group_efficiency"] := by
  refine ⟨rfl, ?_⟩
  show ["jobstats/jobstats", "jobstats/group_efficiency"].map scriptBaseName = _
  decide

/-- C2: the packaging manifest declares exactly one configuration data
file, installed into the data directory `config`, and that file's name
is `jobstats-config.ini`. -/
theorem data_files_declare_one_config (d : String) (p : List String) :
    (setupArgs d p).data_files = [("config", ["jobstats/jobstats-config.ini"])] ∧
    scriptBaseName "jobstats/jobstats-config.ini" = "jobstats-config.ini" :=
  ⟨rfl, by decide⟩

/-- C3: the classifier list declares `Operating System :: POSIX ::
Linux` and `Programming Language :: Python :: 3 :: Only`, and these
are the only operating-system and programming-language classifiers it
declares. -/
theorem classifiers_declare_linux_python3_only (d : String) (p : List String) :
    "Operating System :: POSIX :: Linux" ∈ (setupArgs d p).classifiers ∧
    "Programming Language :: Python :: 3 :: Only" ∈ (setupArgs d p).classifiers ∧
    (setupArgs d p).classifiers.filter (classifierStartsWith "Operating System") =
      ["Operating System :: POSIX :: Linux"] ∧
    (setupArgs d p).classifiers.filter (classifierStartsWith "Programming Language") =
      ["Programming Language :: Python :: 3 :: Only"] := by
  have hc : (setupArgs d p).classifiers =
      [ "Programming Language :: Python :: 3 :: Only",
        "License :: OSI Approved :: GNU General Public License v3 (GPLv3)",
        "Operating System :: POSIX :: Linux",
        "Environment :: Console",
        "Development Status :: 5 - Production/Stable" ] := rfl
  rw [hc]
  decide

/-- C4: no statement of `setup.py` contains an exception handler or a
guard at any nesting depth, so a failure to open `README.md`
propagates out of the run as an unhandled error. -/
theorem no_error_handling_anywhere (argv : List String)
    (environ : List (String × String)) (fs : Filesystem) (h : fs.readme = none) :
    stmtListHasErrorHandling setupScript = false ∧
    (runScript argv environ fs).2 = some (.fileNotFound "README.md") := by
  refine ⟨by decide, ?_⟩
  unfold runScript
  rw [h]

/-- Witness for C4 at the concrete filesystem with no `README.md`. -/
theorem no_error_handling_anywhere_witness :
    (Filesystem.mk none []).readme = none ∧
    (stmtListHasErrorHandling setupScript = false ∧
      (runScript [] [] (Filesystem.mk none [])).2 = some (.fileNotFound "README.md")) :=
  ⟨rfl, no_error_handling_anywhere [] [] (Filesystem.mk none []) rfl⟩

/-- C5: no statement of `setup.py` mentions `sys.argv` or
`os.environ`, and the run result is independent of the command line
and the environment. -/
theorem no_cli_env_or_protocol_references (argv argv' : List String)
    (environ environ' : List (String × String)) (fs : Filesystem) :
    stmtListMentions "sys" "argv" setupScript = false ∧
    stmtListMentions "os" "environ" setupScript = false ∧
    runScript argv environ fs = runScript argv' environ' fs :=
  ⟨by decide, by decide, rfl⟩

/-- C6: the source file has exactly 32 physical lines; every top-level
statement is packaging metadata (an import, the `README.md` read, or
the `setuptools.setup` call), and no statement contains algorithmic
core logic (a function definition, loop, conditional or `try`
block). -/
theorem source_is_32_lines_of_packaging_metadata :
    sourceLines.length = 32 ∧
    setupScript.all stmtIsPackagingMetadata = true ∧
    stmtListHasCoreLogic setupScript = false := by decide

/-- C7: on any run where `README.md` is readable, the observable trace
is exactly the `README.md` read followed by a single
`setuptools.setup` invocation — the trace contains exactly one setup
call and nothing else is touched, and no error is raised. -/
theorem single_setup_call_and_frame (argv : List String)
    (environ : List (String × String)) (fs : Filesystem) (content : String)
    (h : fs.readme = some content) :
    runScript argv environ fs =
      ([.fileRead "README.md",
        .setupCall (setupArgs content (find_packages fs))], none) ∧
    ((runScript argv environ fs).1.filter Effect.isSetupCall).length = 1 := by
  have h1 : runScript argv environ fs =
      ([.fileRead "README.md",
        .setupCall (setupArgs content (find_packages fs))], none) := by
    unfold runScript
    rw [h]
  refine ⟨h1, ?_⟩
  rw [h1]
  rfl

/-- Witness for C7 at a concrete filesystem whose `README.md` reads
`hello`. -/
theorem single_setup_call_and_frame_witness :
    (Filesystem.mk (some "hello") []).readme = some "hello" ∧
    (runScript [] [] (Filesystem.mk (some "hello") []) =
      ([.fileRead "README.md",
        .setupCall (setupArgs "hello" (find_packages (Filesystem.mk (some "hello") [])))],
       none) ∧
     ((runScript [] [] (Filesystem.mk (some "hello") [])).1.filter
        Effect.isSetupCall).length = 1) :=
  ⟨rfl, single_setup_call_and_frame [] [] (Filesystem.mk (some "hello") []) "hello" rfl⟩

/-- C8: whenever `README.md` cannot be opened, the run stops with the
error before `setuptools.setup` is reached: the trace is empty and in
particular contains no setup invocation. -/
theorem no_setup_call_when_readme_missing (argv : List String)
    (environ : List (String × String)) (fs : Filesystem) (h : fs.readme = none) :
    runScript argv environ fs = ([], some (.fileNotFound "README.md")) ∧
    ((runScript argv environ fs).1.all fun e => ! e.isSetupCall) = true := by
  have h1 : runScript argv environ fs = ([], some (.fileNotFound "README.md")) := by
    unfold runScript
    rw [h]
  exact ⟨h1, by rw [h1]; rfl⟩

/-- Witness for C8 at the concrete filesystem with no `README.md`. -/
theorem no_setup_call_when_readme_missing_witness :
    (Filesystem.mk none ["jobstats"]).readme = none ∧
    (runScript [] [] (Filesystem.mk none ["jobstats"]) =
      ([], some (.fileNotFound "README.md")) ∧
     ((runScript [] [] (Filesystem.mk none ["jobstats"])).1.all
        fun e => ! e.isSetupCall) = true) :=
  ⟨rfl, no_setup_call_when_readme_missing [] [] (Filesystem.mk none ["jobstats"]) rfl⟩

/-- C9: for every possible content of `README.md`, the
`long_description` argument passed to `setuptools.setup` is exactly
that content, unchanged, and the declared content type is
`text/markdown`. -/
theorem long_description_passed_unchanged (argv : List String)
    (environ : List (String × String)) (fs : Filesystem) (content : String)
    (h : fs.readme = some content) :
    (runScript argv environ fs).1 =
      [.fileRead "README.md", .setupCall (setupArgs content (find_packages fs))] ∧
    (setupArgs content (find_packages fs)).long_description = content ∧
    (setupArgs content (find_packages fs)).long_description_content_type =
      "text/markdown" := by
  refine ⟨?_, rfl, rfl⟩
  unfold runScript
  rw [h]

/-- Witness for C9 at a concrete filesystem whose `README.md` reads
`# jobstats readme`. -/
theorem long_description_passed_unchanged_witness :
    (Filesystem.mk (some "# jobstats readme") []).readme = some "# jobstats readme" ∧
    ((runScript [] [] (Filesystem.mk (some "# jobstats readme") [])).1 =
      [.fileRead "README.md",
       .setupCall (setupArgs "# jobstats readme"
         (find_packages (Filesystem.mk (some "# jobstats readme") [])))] ∧
     (setupArgs "# jobstats readme"
        (find_packages (Filesystem.mk (some "# jobstats readme") []))).long_description =
       "# jobstats readme" ∧
     (setupArgs "# jobstats readme"
        (find_packages
          (Filesystem.mk (some "# jobstats readme") []))).long_description_content_type =
       "text/markdown") :=
  ⟨rfl, long_description_passed_unchanged [] []
    (Filesystem.mk (some "# jobstats readme") []) "# jobstats readme" rfl⟩

/-- C10 as stated is false: two runs with identical `README.md`
content but different `setuptools.find_packages()` scan results pass
different arguments to `setuptools.setup` (the `packages` argument
follows the filesystem scan, not `README.md`). -/
theorem setup_args_not_function_of_readme_alone :
    (Filesystem.mk (some "same readme") []).readme =
      (Filesystem.mk (some "same readme") ["jobstats"]).readme ∧
    runScript [] [] (Filesystem.mk (some "same readme") []) ≠
      runScript [] [] (Filesystem.mk (some "same readme") ["jobstats"]) := by
  decide

/-- C10 amended: the arguments passed to `setuptools.setup` are a
deterministic function of the `README.md` content and the
`setuptools.find_packages()` scan result — two runs agreeing on both
produce identical arguments regardless of command line and environment
— and `name`, `version`, `scripts`, `data_files` and `classifiers` are
constants independent of every input. -/
theorem setup_args_deterministic_given_readme_and_scan (argv argv' : List String)
    (environ environ' : List (String × String)) (fs fs' : Filesystem)
    (h : fs.readme = fs'.readme) (hp : fs.packageDirs = fs'.packageDirs) :
    runScript argv environ fs = runScript argv' environ' fs' ∧
    ∀ d p, (setupArgs d p).name = "jobstats" ∧
      (setupArgs d p).version = "1.2.5" ∧
      (setupArgs d p).scripts = ["jobstats/jobstats", "jobstats/group_efficiency"] ∧
      (setupArgs d p).data_files = [("config", ["jobstats/jobstats-config.ini"])] ∧
      (setupArgs d p).classifiers =
        [ "Programming Language :: Python :: 3 :: Only",
          "License :: OSI Approved :: GNU General Public License v3 (GPLv3)",
          "Operating System :: POSIX :: Linux",
          "Environment :: Console",
          "Development Status :: 5 - Production/Stable" ] := by
  constructor
  · unfold runScript find_packages
    rw [h, hp]
  · intro d p
    exact ⟨rfl, rfl, rfl, rfl, rfl⟩

/-- Witness for the amended C10 at a concrete filesystem, with two
different command lines and environments. -/
theorem setup_args_deterministic_given_readme_and_scan_witness :
    (Filesystem.mk (some "same readme") ["jobstats"]).readme =
      (Filesystem.mk (some "same readme") ["jobstats"]).readme ∧
    (Filesystem.mk (some "same readme") ["jobstats"]).packageDirs =
      (Filesystem.mk (some "same readme") ["jobstats"]).packageDirs ∧
    (runScript ["--verbose"] [] (Filesystem.mk (some "same readme") ["jobstats"]) =
      runScript [] [("HOME", "/root")] (Filesystem.mk (some "same readme") ["jobstats"]) ∧
     ∀ d p, (setupArgs d p).name = "jobstats" ∧
       (setupArgs d p).version = "1.2.5" ∧
       (setupArgs d p).scripts = ["jobstats/jobstats", "jobstats/group_efficiency"] ∧
       (setupArgs d p).data_files = [("config", ["jobstats/jobstats-config.ini"])] ∧
       (setupArgs d p).classifiers =
         [ "Programming Language :: Python :: 3 :: Only",
           "License :: OSI Approved :: GNU General Public License v3 (GPLv3)",
           "Operating System :: POSIX :: Linux",
           "Environment :: Console",
           "Development Status :: 5 - Production/Stable" ]) :=
  ⟨rfl, rfl,
    setup_args_deterministic_given_readme_and_scan ["--verbose"] [] [] [("HOME", "/root")]
      (Filesystem.mk (some "same readme") ["jobstats"])
      (Filesystem.mk (some "same readme") ["jobstats"]) rfl rfl⟩

end JobstatsSetup
